import Mathlib

/-!
Shallow embedding of `driver.go` from `leedo/planetscale-fastly`: a Go
`database/sql` driver that talks to a PlanetScale HTTP/JSON gateway from a
Fastly Compute@Edge worker.

Modelling conventions:
* Machine bytes are `Nat` (each < 256 in practice; the bound is irrelevant to
  the claims), byte slices are `List Nat`.
* JSON documents are the inductive `Json`.  The `fastjson` parse step is an
  external library call, so an HTTP body is carried as the raw string together
  with the library's parse result (`Body.parsed = none` models a fastjson
  parse failure).  The `fastjson` accessors used by the source
  (`Get`, `GetObject`, `GetArray`, `GetStringBytes`, `GetUint`) are modelled
  by total Lean functions with the library's nil-propagation semantics.
* Go panics (nil-pointer dereference, slice out of range) are modelled by
  explicit `crashed` / `outOfRange` outcome constructors — they abort the
  operation, which is exactly how a panic propagates out of `QueryContext`.
* Network I/O is an environment (`Env`) handing each of the two possible
  exchanges its transport-level result; `QueryContext` additionally records a
  trace of the exchanges it performs, including the request bodies it sends.
-/

namespace PS

/-- Model of a JSON document as parsed by `fastjson`. -/
inductive Json where
  | null : Json
  | bool (b : Bool) : Json
  | num (n : Int) : Json
  | str (s : String) : Json
  | arr (elems : List Json) : Json
  | obj (members : List (String × Json)) : Json

/-- First binding of `key` in an object's member list (fastjson `Object.Get`
scans members in order and returns the first match, or nil). -/
def lookupFirst : List (String × Json) → String → Option Json
  | [], _ => none
  | (k, v) :: rest, key => if k = key then some v else lookupFirst rest key

/-- `fastjson` `Value.Get(key)`: member lookup on an object value, nil on
anything else. -/
def Json.lookup : Json → String → Option Json
  | .obj kvs, key => lookupFirst kvs key
  | _, _ => none

/-- `fastjson` `Value.GetObject(key)`: the member's object contents when the
member exists and is an object, nil otherwise. -/
def Json.getObjectMembers (v : Json) (key : String) : Option (List (String × Json)) :=
  match v.lookup key with
  | some (.obj kvs) => some kvs
  | _ => none

/-- `fastjson` `Value.GetObject(key)` called on a possibly-nil `*Value`
(nil receiver yields nil). -/
def getObjectOpt (v : Option Json) (key : String) : Option (List (String × Json)) :=
  match v with
  | some j => j.getObjectMembers key
  | none => none

/-- `fastjson` `Value.GetArray()` with no key: the elements when the value is
an array, nil (empty) otherwise. -/
def Json.getArray : Json → List Json
  | .arr xs => xs
  | _ => []

/-- `fastjson` `Value.GetArray(key)`. -/
def Json.getArrayKey (v : Json) (key : String) : List Json :=
  match v.lookup key with
  | some (.arr xs) => xs
  | _ => []

/-- `fastjson` `Value.GetStringBytes()` with no key, converted through Go's
`string(...)`: the string contents when the value is a string, `""`
(from a nil byte slice) otherwise. -/
def stringBytesOf : Json → String
  | .str s => s
  | _ => ""

/-- `fastjson` `Value.GetStringBytes(key)` through `string(...)`. -/
def Json.getStringBytesKey (v : Json) (key : String) : String :=
  match v.lookup key with
  | some (.str s) => s
  | _ => ""

/-- `fastjson` `Value.GetUint(key)`: the number as an unsigned integer, 0 on
any failure (missing member, non-number, negative). -/
def Json.getUintKey (v : Json) (key : String) : Nat :=
  match v.lookup key with
  | some (.num n) => if 0 ≤ n then n.toNat else 0
  | _ => 0

/-- JSON string escaping shared by `encoding/json.Marshal` on a string and
`fastjson`'s string serialization (common path: quote, backslash and the
usual control escapes). -/
def escapeChar (c : Char) : String :=
  if c = '"' then "\\\""
  else if c = '\\' then "\\\\"
  else if c = '\n' then "\\n"
  else if c = '\r' then "\\r"
  else if c = '\t' then "\\t"
  else String.singleton c

/-- A JSON string literal for `s`. -/
def jsonQuote (s : String) : String :=
  "\"" ++ String.join (s.data.map escapeChar) ++ "\""

mutual

/-- `fastjson` `MarshalTo`: serialize a JSON value, preserving member order. -/
def marshal : Json → String
  | .null => "null"
  | .bool true => "true"
  | .bool false => "false"
  | .num n => toString n
  | .str s => jsonQuote s
  | .arr xs => "[" ++ marshalElems xs ++ "]"
  | .obj kvs => "\x7b" ++ marshalMembers kvs ++ "\x7d"

/-- Comma-separated serialization of array elements. -/
def marshalElems : List Json → String
  | [] => ""
  | [x] => marshal x
  | x :: y :: rest => marshal x ++ "," ++ marshalElems (y :: rest)

/-- Comma-separated serialization of object members. -/
def marshalMembers : List (String × Json) → String
  | [] => ""
  | [(k, v)] => jsonQuote k ++ ":" ++ marshal v
  | (k, v) :: m :: rest => jsonQuote k ++ ":" ++ marshal v ++ "," ++ marshalMembers (m :: rest)

end

/-- Go `strconv.ParseUint(s, 10, 64)`: nonempty, decimal digits only, value
below 2^64; `none` models the returned error. -/
def parseUint (s : String) : Option Nat :=
  let cs := s.data
  if cs.isEmpty then none
  else if cs.all Char.isDigit then
    let n := cs.foldl (fun acc c => acc * 10 + (c.toNat - 48)) 0
    if n < 2 ^ 64 then some n else none
  else none

/-- Value of one base64 alphabet character (`A-Za-z0-9+/`). -/
def b64Val (c : Char) : Option Nat :=
  if 'A' ≤ c ∧ c ≤ 'Z' then some (c.toNat - 65)
  else if 'a' ≤ c ∧ c ≤ 'z' then some (c.toNat - 97 + 26)
  else if '0' ≤ c ∧ c ≤ '9' then some (c.toNat - 48 + 52)
  else if c = '+' then some 62
  else if c = '/' then some 63
  else none

/-- Decode base64 input four characters at a time, `StdEncoding` padding
rules: a final `xx==` quantum yields one byte, a final `xxx=` yields two,
anything else malformed is an error. -/
def b64DecodeGroups : List Char → Option (List Nat)
  | [] => some []
  | a :: b :: '=' :: '=' :: rest =>
    match b64Val a, b64Val b, rest with
    | some va, some vb, [] => some [va * 4 + vb / 16]
    | _, _, _ => none
  | a :: b :: c :: '=' :: rest =>
    match b64Val a, b64Val b, b64Val c, rest with
    | some va, some vb, some vc, [] =>
      some [va * 4 + vb / 16, (vb % 16) * 16 + vc / 4]
    | _, _, _, _ => none
  | a :: b :: c :: d :: rest =>
    match b64Val a, b64Val b, b64Val c, b64Val d, b64DecodeGroups rest with
    | some va, some vb, some vc, some vd, some bs =>
      some ([va * 4 + vb / 16, (vb % 16) * 16 + vc / 4, (vc % 4) * 64 + vd] ++ bs)
    | _, _, _, _, _ => none
  | _ => none

/-- Go `base64.StdEncoding.Decode`: ignores CR/LF, then decodes padded
quanta; `none` models `CorruptInputError`. -/
def base64Decode (s : String) : Option (List Nat) :=
  b64DecodeGroups (s.data.filter fun c => c ≠ '\r' ∧ c ≠ '\n')

/-- Go `base64.StdEncoding.DecodedLen(n) = n / 4 * 3`: the capacity of the
buffer `readRows` allocates for the decoded bytes. -/
def decodedLen (n : Nat) : Nat := n / 4 * 3

/-- A `PsField` (`driver.go:40`). -/
structure PsField where
  name : String
  type : String
  table : String
  columnLength : Nat
  charset : Nat
  flags : Nat
deriving DecidableEq

/-- A `PsRow` (`driver.go:49`): the per-column byte slices. -/
structure PsRow where
  values : List (List Nat)
deriving DecidableEq

/-- Outcome of decoding one row's `values`/`lengths` pair.  `outOfRange`
models the Go panic `slice bounds out of range` raised by
`dst[pos : pos+u]` when `pos+u` exceeds the buffer's capacity (or wraps
below `pos` in uint64 arithmetic, which also panics). -/
inductive RowOutcome where
  | ok (values : List (List Nat))
  | parseErr (s : String)
  | outOfRange
deriving DecidableEq

/-- The length-walking loop of `readRows` (`driver.go:172-181`): `backing` is
the full decoded buffer at its allocated capacity, `pos` the running offset;
each length string is parsed with `strconv.ParseUint` and the column value is
the slice `backing[pos : pos+u]`. -/
def readRowLoop (backing : List Nat) (pos : Nat) : List String → RowOutcome
  | [] => .ok []
  | l :: rest =>
    match parseUint l with
    | none => .parseErr l
    | some u =>
      if pos + u ≤ backing.length then
        match readRowLoop backing (pos + u) rest with
        | .ok vs => .ok ((backing.drop pos).take u :: vs)
        | e => e
      else .outOfRange

/-- Decoding one row given the base64-decoded bytes `decoded` and the
`padding` slack between the decoded length `n` and the buffer capacity
`DecodedLen` (`dst = dst[:n]` keeps the capacity, and Go's slice expression
bounds against the capacity, reading zero bytes past `n`). -/
def readRow (decoded : List Nat) (padding : Nat) (lengths : List String) : RowOutcome :=
  readRowLoop (decoded ++ List.replicate padding 0) 0 lengths

/-- Sum of the parsed lengths of a row (unparsable entries count 0; the
round-trip theorem assumes they all parse). -/
def sumLengths (lengths : List String) : Nat :=
  (lengths.map fun l => (parseUint l).getD 0).sum

/-- Outcome of `readRows` over the whole `rows` array. -/
inductive RowsOutcome where
  | ok (rows : List PsRow)
  | errMsg (msg : String)
  | crashed
deriving DecidableEq

/-- Per-element loop of `readRows` (`driver.go:160-184`): for each row value,
read `values` as string bytes (nil → empty), base64-decode it into a buffer
of capacity `DecodedLen`, read `lengths` as an array (nil → empty) of string
bytes, and run the length walk. -/
def readRowsLoop : List Json → RowsOutcome
  | [] => .ok []
  | rv :: rest =>
    let b := rv.getStringBytesKey "values"
    match base64Decode b with
    | none => .errMsg "illegal base64 data"
    | some dst =>
      let cap := decodedLen b.length
      let lengths := (rv.getArrayKey "lengths").map stringBytesOf
      match readRowLoop (dst ++ List.replicate (cap - dst.length) 0) 0 lengths with
      | .parseErr s => .errMsg ("invalid syntax: " ++ s)
      | .outOfRange => .crashed
      | .ok vs =>
        match readRowsLoop rest with
        | .ok rows => .ok (⟨vs⟩ :: rows)
        | e => e

/-- `readRows` (`driver.go:152-187`): nil `rows` value is the protocol error
`missing rows`; a non-array value yields zero rows (fastjson `GetArray`
returns nil). -/
def readRows (v : Option Json) : RowsOutcome :=
  match v with
  | none => .errMsg "missing rows"
  | some j => readRowsLoop j.getArray

/-- `readFields` (`driver.go:132-150`): nil `fields` value is the protocol
error `missing fields`; each element is read with the zero-defaulting
fastjson getters. -/
def readFields (v : Option Json) : Except String (List PsField) :=
  match v with
  | none => .error "missing fields"
  | some j =>
    .ok (j.getArray.map fun fv =>
      { name := fv.getStringBytesKey "name"
        type := fv.getStringBytesKey "type"
        table := fv.getStringBytesKey "table"
        columnLength := fv.getUintKey "columnLength"
        charset := fv.getUintKey "charset"
        flags := fv.getUintKey "flags" })

/-- `PsConn` (`driver.go:32`): credentials plus the stored session bytes.
`session = none` models a nil Go byte slice, `some s` a non-nil slice holding
the bytes of `s` (Go distinguishes nil from empty). -/
structure PsConn where
  username : String
  password : String
  host : String
  backend : String
  session : Option String
deriving DecidableEq

/-- A `driver.Value` argument (`args` of `Query`/`QueryContext`); the source
never inspects these. -/
inductive Value where
  | null : Value
  | int (n : Int) : Value
  | str (s : String) : Value
  | bytes (bs : List Nat) : Value
deriving DecidableEq

/-- An HTTP response body: the raw bytes together with the result of the
external `fastjson.Parser.ParseBytes` call on them (`none` = parse error). -/
structure Body where
  raw : String
  parsed : Option Json

/-- An HTTP response from the transport adapter. -/
structure HttpResp where
  status : Nat
  body : Body

/-- Transport-level result of one exchange: `Except.error` models a network
failure from `req.Send`. -/
abbrev NetResult := Except String HttpResp

/-- The message `sendRequest` builds for a non-OK status (`driver.go:122`). -/
def transportErrMsg (status : Nat) (body : String) : String :=
  "planetscale API error: " ++ toString status ++ "\n" ++ body

/-- `sendRequest` (`driver.go:109-126`): propagate a network error, otherwise
accept the body only when the status is exactly `fsthttp.StatusOK` (200) and
fail with status and body otherwise. -/
def sendRequest (net : NetResult) : Except String Body :=
  match net with
  | .error e => .error e
  | .ok resp =>
    if resp.status = 200 then .ok resp.body
    else .error (transportErrMsg resp.status resp.body.raw)

/-- One exchange the connection performs, with the request body it sent. -/
inductive Exchange where
  | createSession (requestBody : String)
  | execute (requestBody : String)
deriving DecidableEq

/-- Is this exchange a session-creation exchange? -/
def isCreateSession : Exchange → Bool
  | .createSession _ => true
  | .execute _ => false

/-- Outcome of `refreshSession`.  `crashed` models the nil-pointer panic of
`v.GetObject("session").MarshalTo(...)` when the body did not parse or holds
no `session` object — the parse error at `driver.go:201` is assigned to the
`err` variable from line 195 and never checked. -/
inductive RefreshOutcome where
  | refreshed
  | errMsg (msg : String)
  | crashed
deriving DecidableEq

/-- `refreshSession` (`driver.go:189-206`): empty-body POST to the session
endpoint; on a transport error the session is untouched; otherwise
`c.session` is first reset to the empty (non-nil) slice and then
`MarshalTo` either appends the serialized `session` object or panics on a
nil object. -/
def refreshSession (net : NetResult) (c : PsConn) : RefreshOutcome × PsConn :=
  match sendRequest net with
  | .error e => (.errMsg e, c)
  | .ok body =>
    match getObjectOpt body.parsed "session" with
    | none => (.crashed, { c with session := some "" })
    | some kvs => (.refreshed, { c with session := some (marshal (.obj kvs)) })

/-- The environment: the transport's answer to the (at most one)
session-creation exchange and to the execute exchange of a single
`QueryContext` call. -/
structure Env where
  sessionNet : NetResult
  execNet : NetResult

/-- A `PsResults` cursor (`driver.go:53`). -/
structure PsResults where
  fields : List PsField
  rows : List PsRow
  pos : Nat
deriving DecidableEq

/-- Outcome of one `QueryContext` call.  `crashed` models a Go panic
escaping the call. -/
inductive QueryOutcome where
  | rows (r : PsResults)
  | errMsg (msg : String)
  | crashed
deriving DecidableEq

/-- Result of a `QueryContext` call: the returned value, the connection
state after the call (mutations through the pointer receiver survive even a
panic), and the trace of exchanges performed. -/
structure QueryResult where
  outcome : QueryOutcome
  conn : PsConn
  trace : List Exchange

/-- Session rotation (`driver.go:242-245`): when the response holds a
`session` object, the stored session is reset to empty and the object's
serialization appended; otherwise the connection is untouched. -/
def rotate (c : PsConn) (v : Json) : PsConn :=
  match v.getObjectMembers "session" with
  | some kvs => { c with session := some (marshal (.obj kvs)) }
  | none => c

/-- The error/result handling of `QueryContext` after session rotation
(`driver.go:247-270`), on the already-rotated connection `c`. -/
def handleParsed (v : Json) (c : PsConn) (tr : List Exchange) : QueryResult :=
  match v.getObjectMembers "error" with
  | some ekvs =>
    match lookupFirst ekvs "message" with
    | some m => ⟨.errMsg (stringBytesOf m), c, tr⟩
    | none => ⟨.errMsg "unknown error", c, tr⟩
  | none =>
    match v.getObjectMembers "result" with
    | none => ⟨.errMsg "no result", c, tr⟩
    | some rkvs =>
      match readFields (lookupFirst rkvs "fields") with
      | .error e => ⟨.errMsg e, c, tr⟩
      | .ok fs =>
        match readRows (lookupFirst rkvs "rows") with
        | .errMsg e => ⟨.errMsg e, c, tr⟩
        | .crashed => ⟨.crashed, c, tr⟩
        | .ok rs => ⟨.rows ⟨fs, rs, 0⟩, c, tr⟩

/-- The execute request body (`driver.go:220-224`):
`{"query": <json.Marshal(query)>, "session": <stored session bytes>}`. -/
def execBody (c : PsConn) (query : String) : String :=
  "\x7b\"query\":" ++ jsonQuote query ++ ",\"session\":" ++ c.session.getD "" ++ "\x7d"

/-- The execute exchange of `QueryContext` (`driver.go:215-270`): build the
body, send it, surface transport errors, surface the (checked, this time)
parse error, rotate the session, then branch on error/result. -/
def execPhase (env : Env) (c : PsConn) (query : String) (pre : List Exchange) : QueryResult :=
  let tr := pre ++ [Exchange.execute (execBody c query)]
  match sendRequest env.execNet with
  | .error e => ⟨.errMsg e, c, tr⟩
  | .ok body =>
    match body.parsed with
    | none => ⟨.errMsg "cannot parse JSON", c, tr⟩
    | some v => handleParsed v (rotate c v) tr

/-- `QueryContext` (`driver.go:208-271`): refresh the session first when none
is stored (propagating its failure or panic), then run the execute
exchange.  `args` is accepted and never used, as in the source. -/
def queryContext (env : Env) (c : PsConn) (query : String) (args : List Value) : QueryResult :=
  match c.session with
  | none =>
    match refreshSession env.sessionNet c with
    | (.errMsg e, c2) => ⟨.errMsg e, c2, [Exchange.createSession "\x7b\x7d"]⟩
    | (.crashed, c2) => ⟨.crashed, c2, [Exchange.createSession "\x7b\x7d"]⟩
    | (.refreshed, c2) => execPhase env c2 query [Exchange.createSession "\x7b\x7d"]
  | some _ => execPhase env c query []

/-- `Query` (`driver.go:128-130`): delegates to `QueryContext` with a
background context. -/
def Query (env : Env) (c : PsConn) (query : String) (args : List Value) : QueryResult :=
  queryContext env c query args

/-- `Prepare` (`driver.go:78-80`): always the capability error, no network
activity (the empty exchange trace). -/
def Prepare (c : PsConn) (query : String) : Except String Unit × List Exchange :=
  (.error "Prepare method not implemented", [])

/-- `Begin` (`driver.go:82-84`). -/
def Begin (c : PsConn) : Except String Unit × List Exchange :=
  (.error "Begin method not implemented", [])

/-- `Rollback` (`driver.go:86-88`). -/
def Rollback (c : PsConn) : Except String Unit × List Exchange :=
  (.error "Rollback method not implemented", [])

/-- `Next` (`driver.go:285-298`): end-of-data (`io.EOF`, modelled as `none`)
once `pos+1 > len(rows)`, leaving the cursor untouched; otherwise the
current row is copied out and the position advances.  The per-column copy
into the caller's `dest` buffer is returned as the row itself. -/
def next (r : PsResults) : Option PsRow × PsResults :=
  if h : r.rows.length < r.pos + 1 then (none, r)
  else (some (r.rows.get ⟨r.pos, by omega⟩), { r with pos := r.pos + 1 })

/-- `Columns` (`driver.go:273-279`). -/
def columns (r : PsResults) : List String :=
  r.fields.map PsField.name

/-! ### Concrete fixtures used by witnesses and counterexamples -/

/-- A fresh connection: no stored session. -/
def freshConn : PsConn := ⟨"u", "p", "h", "b", none⟩

/-- A connection already holding a session. -/
def connS : PsConn := ⟨"u", "p", "h", "b", some "\x7b\x7d"⟩

/-- Environment whose session-creation response is valid JSON without a
`session` object. -/
def envNoSession : Env := ⟨.ok ⟨200, ⟨"\x7b\x7d", some (.obj [])⟩⟩, .error "unused"⟩

/-- Environment whose session-creation response body is not valid JSON. -/
def envBadJson : Env := ⟨.ok ⟨200, ⟨"not json", none⟩⟩, .error "unused"⟩

/-- An execute response carrying a `session` object, an `error` object with
a message, and a `result` object all at once. -/
def jRot : Json := .obj [("session", .obj [("k", .str "v")]),
  ("error", .obj [("message", .str "boom")]),
  ("result", .obj [])]

/-- Environment whose execute response is `jRot`. -/
def envRot : Env := ⟨.error "unused", .ok ⟨200, ⟨"", some jRot⟩⟩⟩

/-- Environment with a well-formed empty result. -/
def envEmptyResult : Env := ⟨.ok ⟨200, ⟨"", some (.obj [("session", .obj [])])⟩⟩,
  .ok ⟨200, ⟨"", some (.obj [("result", .obj [("fields", .arr []), ("rows", .arr [])])])⟩⟩⟩

/-! ### Helper lemmas about the pipeline -/

/-- Every branch of the post-rotation handling returns the rotated
connection and the given trace unchanged. -/
theorem handleParsed_conn_trace (v : Json) (c : PsConn) (tr : List Exchange) :
    (handleParsed v c tr).conn = c ∧ (handleParsed v c tr).trace = tr := by
  unfold handleParsed
  repeat' split
  all_goals exact ⟨rfl, rfl⟩

/-- The execute phase always performs exactly the exchanges `pre` followed by
one execute exchange carrying the body built from the current session. -/
theorem execPhase_trace (env : Env) (c : PsConn) (query : String) (pre : List Exchange) :
    (execPhase env c query pre).trace = pre ++ [Exchange.execute (execBody c query)] := by
  unfold execPhase
  repeat' split
  · rfl
  · rfl
  · exact (handleParsed_conn_trace _ _ _).2

/-- When the execute exchange yields status 200 and a parsable body, the
connection after the execute phase is the rotated connection. -/
theorem execPhase_conn (env : Env) (c : PsConn) (query : String) (pre : List Exchange)
    (resp : HttpResp) (j : Json)
    (hnet : env.execNet = .ok resp) (hstatus : resp.status = 200)
    (hparse : resp.body.parsed = some j) :
    (execPhase env c query pre).conn = rotate c j := by
  unfold execPhase
  simp only [sendRequest, hnet, hstatus, hparse, if_true]
  exact (handleParsed_conn_trace _ _ _).1

/-- When the execute exchange yields status 200, a parsable body and an
`error` object, the outcome is the application error derived from
`message`, irrespective of everything else in the response. -/
theorem execPhase_outcome_error (env : Env) (c : PsConn) (query : String)
    (pre : List Exchange) (resp : HttpResp) (j : Json) (ekvs : List (String × Json))
    (hnet : env.execNet = .ok resp) (hstatus : resp.status = 200)
    (hparse : resp.body.parsed = some j)
    (herr : j.getObjectMembers "error" = some ekvs) :
    (execPhase env c query pre).outcome =
      match lookupFirst ekvs "message" with
      | some m => .errMsg (stringBytesOf m)
      | none => .errMsg "unknown error" := by
  unfold execPhase
  simp only [sendRequest, hnet, hstatus, hparse, if_true]
  unfold handleParsed
  simp only [herr]
  split <;> rfl

/-! ### C1 / C2: the row decoder -/

/-- Claim C1 evaluation: on a row whose `values` decode to the two bytes
`"ab"` (base64 `YWI=`, buffer capacity 3), a lengths array summing to 5
makes the decoder hit the out-of-range slice panic, a lengths array summing
to 1 makes it succeed silently with a leftover byte, and a lengths array
summing to 3 makes it silently read a zero capacity byte past the decoded
data — in no case the protocol error the claim requires. -/
theorem readRows_length_mismatch_behavior :
    readRows (some (.arr [.obj [("values", .str "YWI="), ("lengths", .arr [.str "5"])]]))
      = .crashed ∧
    readRows (some (.arr [.obj [("values", .str "YWI="), ("lengths", .arr [.str "1"])]]))
      = .ok [⟨[[97]]⟩] ∧
    readRows (some (.arr [.obj [("values", .str "YWI="), ("lengths", .arr [.str "3"])]]))
      = .ok [⟨[[97, 98, 0]]⟩] ∧
    base64Decode "YWI=" = some [97, 98] ∧
    sumLengths ["5"] ≠ 2 ∧ sumLengths ["1"] ≠ 2 ∧ sumLengths ["3"] ≠ 2 := by
  refine ⟨?_, ?_, ?_, ?_, ?_, ?_, ?_⟩ <;> decide

/-- The length walk succeeds whenever every length parses and the parsed
lengths fit between `pos` and the end of the buffer, producing one value per
length whose concatenation is exactly the bytes walked over. -/
theorem readRowLoop_complete (backing : List Nat) (lengths : List String) :
    ∀ pos : Nat, (∀ l ∈ lengths, (parseUint l).isSome) →
    pos + sumLengths lengths ≤ backing.length →
    ∃ vs, readRowLoop backing pos lengths = .ok vs ∧
      vs.length = lengths.length ∧
      vs.flatten = (backing.drop pos).take (sumLengths lengths) := by
  induction lengths with
  | nil =>
    intro pos _ _
    exact ⟨[], rfl, rfl, by simp [sumLengths]⟩
  | cons l rest ih =>
    intro pos hall hbound
    obtain ⟨u, hu⟩ := Option.isSome_iff_exists.mp (hall l (List.mem_cons_self _ _))
    have hsum : sumLengths (l :: rest) = u + sumLengths rest := by
      simp [sumLengths, hu]
    rw [hsum] at hbound
    obtain ⟨vs, hvs, hlen, hjoin⟩ :=
      ih (pos + u) (fun x hx => hall x (List.mem_cons_of_mem _ hx)) (by omega)
    refine ⟨(backing.drop pos).take u :: vs, ?_, by simp [hlen], ?_⟩
    · simp only [readRowLoop, hu]
      rw [if_pos (by omega), hvs]
    · have hdd : backing.drop (pos + u) = (backing.drop pos).drop u := by
        rw [List.drop_drop, Nat.add_comm]
      rw [List.flatten_cons, hjoin, hdd, hsum, List.take_add]

/-- Claim C2: for a row whose length strings all parse and whose parsed
lengths sum exactly to the decoded blob's length, decoding succeeds with one
value per length, and the in-order concatenation of the values is the full
decoded blob (for any capacity slack `padding` of the decode buffer). -/
theorem readRow_roundtrip (decoded : List Nat) (padding : Nat) (lengths : List String)
    (hall : ∀ l ∈ lengths, (parseUint l).isSome)
    (hsum : sumLengths lengths = decoded.length) :
    ∃ vs, readRow decoded padding lengths = .ok vs ∧
      vs.length = lengths.length ∧ vs.flatten = decoded := by
  obtain ⟨vs, h1, h2, h3⟩ :=
    readRowLoop_complete (decoded ++ List.replicate padding 0) lengths 0 hall
      (by simp [hsum])
  refine ⟨vs, h1, h2, ?_⟩
  rw [h3, List.drop_zero, hsum, List.take_left]

/-- Witness for C2 at a concrete row: blob `"abc"`, lengths `["1", "2"]`. -/
theorem readRow_roundtrip_witness :
    ∃ vs, readRow [97, 98, 99] 0 ["1", "2"] = .ok vs ∧
      vs.length = (["1", "2"] : List String).length ∧ vs.flatten = [97, 98, 99] :=
  readRow_roundtrip [97, 98, 99] 0 ["1", "2"] (by decide) (by decide)

/-! ### C3: missing session on the session-creation exchange -/

/-- Claim C3 evaluation: on a fresh connection, a session-creation response
that is valid JSON without a `session` object, or that is not valid JSON at
all, makes the query crash (the ignored parse error at `driver.go:201`
followed by `MarshalTo` on a nil object) instead of failing with the
protocol error `missing session` the claim requires; the crash also leaves
an empty, non-nil session behind. -/
theorem refreshSession_crashes :
    (queryContext envNoSession freshConn "SELECT 1" []).outcome = .crashed ∧
    (queryContext envBadJson freshConn "SELECT 1" []).outcome = .crashed ∧
    (queryContext envNoSession freshConn "SELECT 1" []).conn.session = some "" :=
  ⟨rfl, rfl, rfl⟩

/-! ### C4: session rotation on the execute exchange -/

/-- Claim C4: whenever the execute exchange is reached (a session is stored,
or the session-creation exchange succeeded) and its response parses and
holds a `session` object, the connection's stored session after the call is
exactly that object's serialization — whether the response also carries an
`error` or a `result` object. -/
theorem session_rotation (env : Env) (c : PsConn) (query : String) (args : List Value)
    (resp : HttpResp) (j : Json) (skvs : List (String × Json))
    (hready : c.session ≠ none ∨ (refreshSession env.sessionNet c).1 = .refreshed)
    (hnet : env.execNet = .ok resp) (hstatus : resp.status = 200)
    (hparse : resp.body.parsed = some j)
    (hsess : j.getObjectMembers "session" = some skvs) :
    (queryContext env c query args).conn.session = some (marshal (.obj skvs)) := by
  cases hs : c.session with
  | some s =>
    simp only [queryContext, hs]
    rw [execPhase_conn env c query [] resp j hnet hstatus hparse]
    simp [rotate, hsess]
  | none =>
    rcases hready with h | h
    · exact absurd hs h
    · rcases hr : refreshSession env.sessionNet c with ⟨ro, c2⟩
      rw [hr] at h
      simp only at h
      subst h
      simp only [queryContext, hs, hr]
      rw [execPhase_conn env c2 query _ resp j hnet hstatus hparse]
      simp [rotate, hsess]

/-- Witness for C4: a stored-session connection, execute response `jRot`
(session, error and result all present): the session is rotated to the
serialized `session` object even though the response is an error
response. -/
theorem session_rotation_witness :
    (queryContext envRot connS "q" []).conn.session =
      some (marshal (.obj [("k", .str "v")])) :=
  session_rotation envRot connS "q" [] ⟨200, ⟨"", some jRot⟩⟩ jRot
    [("k", .str "v")] (Or.inl (by decide)) rfl rfl rfl rfl

/-! ### C5: error short-circuit on the execute exchange -/

/-- Claim C5: whenever the execute exchange is reached and its response
parses to JSON holding an `error` object, the query fails with the
application error carrying the `message` string when present and with the
generic `unknown error` when absent — determined by the `error` object
alone, so a `result` object in the same response is never read. -/
theorem error_short_circuit (env : Env) (c : PsConn) (query : String) (args : List Value)
    (resp : HttpResp) (j : Json) (ekvs : List (String × Json))
    (hready : c.session ≠ none ∨ (refreshSession env.sessionNet c).1 = .refreshed)
    (hnet : env.execNet = .ok resp) (hstatus : resp.status = 200)
    (hparse : resp.body.parsed = some j)
    (herr : j.getObjectMembers "error" = some ekvs) :
    (queryContext env c query args).outcome =
      match lookupFirst ekvs "message" with
      | some m => .errMsg (stringBytesOf m)
      | none => .errMsg "unknown error" := by
  cases hs : c.session with
  | some s =>
    simp only [queryContext, hs]
    exact execPhase_outcome_error env c query [] resp j ekvs hnet hstatus hparse herr
  | none =>
    rcases hready with h | h
    · exact absurd hs h
    · rcases hr : refreshSession env.sessionNet c with ⟨ro, c2⟩
      rw [hr] at h
      simp only at h
      subst h
      simp only [queryContext, hs, hr]
      exact execPhase_outcome_error env c2 query _ resp j ekvs hnet hstatus hparse herr

/-- Witness for C5: the execute response `jRot` holds both `error` (message
`boom`) and `result`; the query fails with exactly `boom`. -/
theorem error_short_circuit_witness :
    (queryContext envRot connS "q" []).outcome = .errMsg "boom" :=
  error_short_circuit envRot connS "q" [] ⟨200, ⟨"", some jRot⟩⟩ jRot
    [("message", .str "boom")] (Or.inl (by decide)) rfl rfl rfl rfl

/-! ### C6: session bootstrap -/

/-- Claim C6: a query on a fresh connection (no stored session) performs
exactly one session-creation exchange and it is the first exchange (hence
before the execute exchange, when one happens); a query on a connection
holding a session performs none. -/
theorem session_bootstrap (env : Env) (c : PsConn) (query : String) (args : List Value) :
    (c.session = none →
      ((queryContext env c query args).trace.filter isCreateSession).length = 1 ∧
      ∃ b, (queryContext env c query args).trace.head? = some (.createSession b)) ∧
    (c.session ≠ none →
      ((queryContext env c query args).trace.filter isCreateSession).length = 0) := by
  constructor
  · intro hnone
    simp only [queryContext, hnone]
    rcases hr : refreshSession env.sessionNet c with ⟨ro, c2⟩
    cases ro with
    | errMsg e => exact ⟨by simp [isCreateSession], ⟨"\x7b\x7d", rfl⟩⟩
    | crashed => exact ⟨by simp [isCreateSession], ⟨"\x7b\x7d", rfl⟩⟩
    | refreshed =>
      rw [execPhase_trace]
      exact ⟨by simp [isCreateSession], ⟨"\x7b\x7d", rfl⟩⟩
  · intro hsome
    cases hs : c.session with
    | none => exact absurd hs hsome
    | some s =>
      simp only [queryContext, hs]
      rw [execPhase_trace]
      simp [isCreateSession]

/-- Witness for C6: the fresh connection performs one leading
session-creation exchange; the stored-session connection performs none. -/
theorem session_bootstrap_witness :
    (((queryContext envEmptyResult freshConn "q" []).trace.filter isCreateSession).length = 1 ∧
      ∃ b, (queryContext envEmptyResult freshConn "q" []).trace.head? =
        some (.createSession b)) ∧
    ((queryContext envRot connS "q" []).trace.filter isCreateSession).length = 0 :=
  ⟨(session_bootstrap envEmptyResult freshConn "q" []).1 rfl,
   (session_bootstrap envRot connS "q" []).2 (by decide)⟩

/-! ### C7: status handling in sendRequest -/

/-- Counterexample to C7 as stated: the 2xx status 201 is not accepted —
`sendRequest` compares against exactly `fsthttp.StatusOK` (200) and turns
201 into a transport error. -/
theorem sendRequest_2xx_rejected :
    sendRequest (.ok ⟨201, ⟨"created", none⟩⟩) = .error (transportErrMsg 201 "created") ∧
    200 ≤ 201 ∧ 201 < 300 :=
  ⟨rfl, by decide, by decide⟩

/-- Claim C7 as amended: a response with status exactly 200 is accepted and
its body returned; any other status (2xx or not) fails with a transport
error reporting the status code and the response body. -/
theorem sendRequest_status_check (resp : HttpResp) :
    (resp.status = 200 → sendRequest (.ok resp) = .ok resp.body) ∧
    (resp.status ≠ 200 →
      sendRequest (.ok resp) = .error (transportErrMsg resp.status resp.body.raw)) := by
  constructor
  · intro h
    simp [sendRequest, h]
  · intro h
    simp [sendRequest, h]

/-- Witness for C7 (amended) at statuses 200 and 500. -/
theorem sendRequest_status_check_witness :
    sendRequest (.ok ⟨200, ⟨"ok", none⟩⟩) = .ok ⟨"ok", none⟩ ∧
    sendRequest (.ok ⟨500, ⟨"boom", none⟩⟩) = .error (transportErrMsg 500 "boom") :=
  ⟨(sendRequest_status_check ⟨200, ⟨"ok", none⟩⟩).1 rfl,
   (sendRequest_status_check ⟨500, ⟨"boom", none⟩⟩).2 (by decide)⟩

/-! ### C8: unsupported operations -/

/-- Claim C8: `Prepare`, `Begin` and `Rollback` fail with their
`not implemented` capability errors and perform zero exchanges, for every
connection state and argument. -/
theorem unsupported_ops (c : PsConn) (query : String) :
    Prepare c query = (.error "Prepare method not implemented", []) ∧
    Begin c = (.error "Begin method not implemented", []) ∧
    Rollback c = (.error "Rollback method not implemented", []) :=
  ⟨rfl, rfl, rfl⟩

/-! ### C9: cursor exhaustion -/

/-- Claim C9: once the cursor position has reached the number of rows, `Next`
returns the end-of-data signal and leaves the whole cursor (position
included) unchanged, so repeated calls at the end are idempotent. -/
theorem next_exhausted (r : PsResults) (h : r.rows.length ≤ r.pos) :
    next r = (none, r) := by
  unfold next
  rw [dif_pos (by omega)]

/-- Witness for C9: a one-row cursor that has consumed its row. -/
theorem next_exhausted_witness :
    next ⟨[], [⟨[[1]]⟩], 1⟩ = (none, ⟨[], [⟨[[1]]⟩], 1⟩) :=
  next_exhausted ⟨[], [⟨[[1]]⟩], 1⟩ (by decide)

/-! ### C10: args are ignored -/

/-- Claim C10: `Query` and `QueryContext` never use `args`: with the same
connection state, query text and transport responses, the whole result —
outcome, connection state, and the trace with the request bodies sent — is
identical for any two argument lists. -/
theorem args_ignored (env : Env) (c : PsConn) (query : String)
    (args1 args2 : List Value) :
    queryContext env c query args1 = queryContext env c query args2 ∧
    Query env c query args1 = Query env c query args2 :=
  ⟨rfl, rfl⟩

end PS



